import Mathlib

/-!
Verification development for the NLIBS multicopter controller
(`mc_nlibs_control_main.cpp`, class `MulticopterNLIBSControl`).

Machine floats are modelled as rationals (`ℚ`) for the executable parts and
as reals (`ℝ`) for the geometric routines; the parameter store is modelled
as a total map from parameter names to values, `param_find` returning the
name itself as the handle.
-/

/-- Constant from the source: `#define RATES_I_LIMIT 0.3f`. -/
def RATES_I_LIMIT : ℚ := 3/10

/-- Constant from the source: `#define MIN_TAKEOFF_THRUST 0.2f`. -/
def MIN_TAKEOFF_THRUST : ℚ := 1/5

/-- Constant from the source: `#define TILT_COS_MAX 0.7f`. -/
def TILT_COS_MAX : ℚ := 7/10

/-- A 2x2 matrix over the rationals, as in `math::Matrix<2, 2>`. -/
def Mat2 : Type := Fin 2 → Fin 2 → ℚ

/-- A 4x4 matrix over the rationals, as in `math::Matrix<4, 4>`. -/
def Mat4 : Type := Fin 4 → Fin 4 → ℚ

/-- Single-entry in-place write `M(i,j) = v` on a 2x2 matrix. -/
def upd2 (M : Mat2) (i j : Fin 2) (v : ℚ) : Mat2 :=
  fun a b => if a = i ∧ b = j then v else M a b

/-- Single-entry in-place write `M(i,j) = v` on a 4x4 matrix. -/
def upd4 (M : Mat4) (i j : Fin 4) (v : ℚ) : Mat4 :=
  fun a b => if a = i ∧ b = j then v else M a b

/-- The all-zero 2x2 matrix (`math::Matrix::zero()`). -/
def zeroMat2 : Mat2 := fun _ _ => 0

/-- The all-zero 4x4 matrix (`math::Matrix::zero()`). -/
def zeroMat4 : Mat4 := fun _ _ => 0

/-- A 3-vector over the rationals, as in `math::Vector<3>`. -/
structure Vec3Q where
  x : ℚ
  y : ℚ
  z : ℚ
deriving DecidableEq

/-- The zero 3-vector (`math::Vector::zero()`). -/
def Vec3Q.zero : Vec3Q := ⟨0, 0, 0⟩

/-- The `_params_handles` struct: one parameter-store handle per named
parameter.  A handle is modelled as the store name it was bound to by
`param_find`.  The source field `q_rotor _root_angle` (a malformed
identifier in the C++) is rendered `q_rotor_root_angle`. -/
structure ParamHandles where
  q_mass : String
  q_ix_moment : String
  q_iy_moment : String
  q_iz_moment : String
  q_arm_length : String
  q_drag_coeff : String
  q_xlin_drag : String
  q_ylin_drag : String
  q_zlin_drag : String
  q_xrot_drag : String
  q_yrot_drag : String
  q_zrot_drag : String
  q_rotor_radius : String
  q_rotor_twist_angle : String
  q_rotor_root_angle : String
  q_motor_cst : String
  thr_min : String
  thr_max : String
  x_gain : String
  y_gain : String
  x_vel_gain : String
  y_vel_gain : String
  phi_gain : String
  theta_gain : String
  phi_vel_gain : String
  theta_vel_gain : String
  psi_gain : String
  z_gain : String
  psi_vel_gain : String
  z_vel_gain : String
  f1_gain : String
  f2_gain : String
  f3_gain : String
  f4_gain : String
  xy_vel_max : String
  xy_ff : String
  tilt_max_air : String
  tilt_max_land : String
  land_speed : String
  man_roll_max : String
  man_pitch_max : String
  man_yaw_max : String

/-- The handle bindings performed by the constructor
`MulticopterNLIBSControl::MulticopterNLIBSControl()` via `param_find`,
transcribed name for name from the source (lines 442-485). -/
def params_handles : ParamHandles :=
  { q_mass := "NLIBSC_QMASS"
    q_ix_moment := "NLIBSC_QIX_MOMENT"
    q_iy_moment := "NLIBSC_QIY_MOMENT"
    q_iz_moment := "NLIBSC_QIZ_MOMENT"
    q_arm_length := "NLIBSC_QARM_LENGTH"
    q_drag_coeff := "NLIBSC_QDRAG_COEFF"
    q_xlin_drag := "NLIBSC_QXLIN_DRAG"
    q_ylin_drag := "NLIBSC_QYLIN_DRAG"
    q_zlin_drag := "NLIBSC_QZLIN_DRAG"
    q_xrot_drag := "NLIBSC_QXROT_DRAG"
    q_yrot_drag := "NLIBSC_QYROT_DRAG"
    q_zrot_drag := "NLIBSC_QZROT_DRAG"
    q_rotor_radius := "NLIBSC_QROTOR_RADIUS"
    q_rotor_twist_angle := "NLIBSC_QROTOR_TWIST_ANGLE"
    q_rotor_root_angle := "NLIBSC_QROTOR_ROOT_ANGLE"
    q_motor_cst := "NLIBSC_QMOTOR_CST"
    thr_min := "NLIBSC_THR_MIN"
    thr_max := "NLIBSC_THR_MAX"
    x_gain := "NLIBSC_X_GAIN"
    y_gain := "NLIBSC_Y_GAIN"
    x_vel_gain := "NLIBSC_X_VEL_GAIN"
    y_vel_gain := "NLIBSC_Y_VEL_GAIN"
    phi_gain := "NLIBSC_PHI_GAIN"
    theta_gain := "NLIBSC_THETA_GAIN"
    phi_vel_gain := "NLIBSC_PHI_RATE_GAIN"
    theta_vel_gain := "NLIBSC_THETA_RATE_GAIN"
    psi_gain := "NLIBSC_PSI_GAIN"
    z_gain := "NLIBSC_Z_GAIN"
    psi_vel_gain := "NLIBSC_PSI_RATE_GAIN"
    z_vel_gain := "NLIBSC_Z_VEL_GAIN"
    f1_gain := "NLIBSC_F1_GAIN"
    f2_gain := "NLIBSC_F2_GAIN"
    f3_gain := "NLIBSC_F3_GAIN"
    f4_gain := "NLIBSC_F4_GAIN"
    xy_vel_max := "NLIBSC_ROLL_RATE_MAX"
    xy_ff := "NLIBSC_PITCH_RATE_MAX"
    tilt_max_air := "NLIBSC_YAW_RATE_MAX"
    tilt_max_land := "NLIBSC_XY_VEL_MAX"
    land_speed := "NLIBSC_XY_FF"
    man_roll_max := "NLIBSC_TILTMAX_AIR"
    man_pitch_max := "NLIBSC_TILTMAX_LND"
    man_yaw_max := "NLIBSC_LAND_SPEED" }

/-- The `_params` cached parameter struct (source lines 223-264).  The
malformed source field `q_rotor _root_angle` is rendered
`q_rotor_root_angle`. -/
structure Params where
  q_mass : ℚ
  q_ix_moment : ℚ
  q_iy_moment : ℚ
  q_iz_moment : ℚ
  q_arm_length : ℚ
  q_drag_coeff : ℚ
  q_xlin_drag : ℚ
  q_ylin_drag : ℚ
  q_zlin_drag : ℚ
  q_xrot_drag : ℚ
  q_yrot_drag : ℚ
  q_zrot_drag : ℚ
  q_rotor_radius : ℚ
  q_rotor_twist_angle : ℚ
  q_rotor_root_angle : ℚ
  q_motor_cst : ℚ
  thr_min : ℚ
  thr_max : ℚ
  tilt_max_air : ℚ
  land_speed : ℚ
  tilt_max_land : ℚ
  man_roll_max : ℚ
  man_pitch_max : ℚ
  man_yaw_max : ℚ
  yaw_ff : ℚ
  roll_rate_max : ℚ
  pitch_rate_max : ℚ
  yaw_rate_max : ℚ
  nlibs_rate_max : Vec3Q
  A1_gain : Mat2
  A2_gain : Mat2
  A3_gain : Mat2
  A4_gain : Mat2
  A5_gain : Mat2
  A6_gain : Mat2
  A7_gain : Mat4

/-- The `_params` state established by the constructor before the first
refresh: the gain matrices and `nlibs_rate_max` are explicitly zeroed
(source lines 420-428); the scalar fields start zero (object comes from
zero-initialised storage, matching the surrounding `memset` pattern). -/
def initial_params : Params :=
  { q_mass := 0, q_ix_moment := 0, q_iy_moment := 0, q_iz_moment := 0
    q_arm_length := 0, q_drag_coeff := 0
    q_xlin_drag := 0, q_ylin_drag := 0, q_zlin_drag := 0
    q_xrot_drag := 0, q_yrot_drag := 0, q_zrot_drag := 0
    q_rotor_radius := 0, q_rotor_twist_angle := 0, q_rotor_root_angle := 0
    q_motor_cst := 0
    thr_min := 0, thr_max := 0, tilt_max_air := 0, land_speed := 0
    tilt_max_land := 0, man_roll_max := 0, man_pitch_max := 0, man_yaw_max := 0
    yaw_ff := 0, roll_rate_max := 0, pitch_rate_max := 0, yaw_rate_max := 0
    nlibs_rate_max := Vec3Q.zero
    A1_gain := zeroMat2, A2_gain := zeroMat2, A3_gain := zeroMat2
    A4_gain := zeroMat2, A5_gain := zeroMat2, A6_gain := zeroMat2
    A7_gain := zeroMat4 }

/-- The body of `MulticopterNLIBSControl::parameter_update()` (source lines
515-615), transcribed statement for statement.  It reads, through the bound
handles, only the twelve mass/inertia/arm-length/drag constants and the
sixteen diagonal gain entries; the rotor-geometry, motor-constant, thrust
and limit reads listed in its own comment block (lines 518-537) are absent
from the body.  `store` is the external parameter store consulted by
`param_get`. -/
def parameter_update (store : String → ℚ) (h : ParamHandles) (p : Params) : Params :=
  { p with
    q_mass := store h.q_mass
    q_ix_moment := store h.q_ix_moment
    q_iy_moment := store h.q_iy_moment
    q_iz_moment := store h.q_iz_moment
    q_arm_length := store h.q_arm_length
    q_drag_coeff := store h.q_drag_coeff
    q_xlin_drag := store h.q_xlin_drag
    q_ylin_drag := store h.q_ylin_drag
    q_zlin_drag := store h.q_zlin_drag
    q_xrot_drag := store h.q_xrot_drag
    q_yrot_drag := store h.q_yrot_drag
    q_zrot_drag := store h.q_zrot_drag
    A1_gain := upd2 (upd2 p.A1_gain 0 0 (store h.x_gain)) 1 1 (store h.y_gain)
    A2_gain := upd2 (upd2 p.A2_gain 0 0 (store h.x_vel_gain)) 1 1 (store h.y_vel_gain)
    A3_gain := upd2 (upd2 p.A3_gain 0 0 (store h.phi_gain)) 1 1 (store h.theta_gain)
    A4_gain := upd2 (upd2 p.A4_gain 0 0 (store h.phi_vel_gain)) 1 1 (store h.theta_vel_gain)
    A5_gain := upd2 (upd2 p.A5_gain 0 0 (store h.psi_gain)) 1 1 (store h.z_gain)
    A6_gain := upd2 (upd2 p.A6_gain 0 0 (store h.psi_vel_gain)) 1 1 (store h.z_vel_gain)
    A7_gain := upd4 (upd4 (upd4 (upd4 p.A7_gain 0 0 (store h.f1_gain))
      1 1 (store h.f2_gain)) 2 2 (store h.f3_gain)) 3 3 (store h.f4_gain) }

/-- Tuple of every `_params` field that `parameter_update` never writes:
the thrust and tilt limits, speed and manual limits, yaw feed-forward, the
three rate maxima, the rotor geometry and motor constant, `nlibs_rate_max`,
and every off-diagonal gain entry. -/
def untouchedFields (p : Params) :=
  (p.thr_min, p.thr_max, p.tilt_max_air, p.tilt_max_land, p.land_speed,
   p.man_roll_max, p.man_pitch_max, p.man_yaw_max, p.yaw_ff,
   p.roll_rate_max, p.pitch_rate_max, p.yaw_rate_max,
   p.q_rotor_radius, p.q_rotor_twist_angle, p.q_rotor_root_angle,
   p.q_motor_cst, p.nlibs_rate_max,
   p.A1_gain 0 1, p.A1_gain 1 0,
   p.A2_gain 0 1, p.A2_gain 1 0,
   p.A3_gain 0 1, p.A3_gain 1 0,
   p.A4_gain 0 1, p.A4_gain 1 0,
   p.A5_gain 0 1, p.A5_gain 1 0,
   p.A6_gain 0 1, p.A6_gain 1 0,
   p.A7_gain 0 1, p.A7_gain 0 2, p.A7_gain 0 3,
   p.A7_gain 1 0, p.A7_gain 1 2, p.A7_gain 1 3,
   p.A7_gain 2 0, p.A7_gain 2 1, p.A7_gain 2 3,
   p.A7_gain 3 0, p.A7_gain 3 1, p.A7_gain 3 2)

/-- Tuple of every `_params` field that `parameter_update` does write. -/
def writtenFields (p : Params) :=
  (p.q_mass, p.q_ix_moment, p.q_iy_moment, p.q_iz_moment,
   p.q_arm_length, p.q_drag_coeff,
   p.q_xlin_drag, p.q_ylin_drag, p.q_zlin_drag,
   p.q_xrot_drag, p.q_yrot_drag, p.q_zrot_drag,
   p.A1_gain 0 0, p.A1_gain 1 1,
   p.A2_gain 0 0, p.A2_gain 1 1,
   p.A3_gain 0 0, p.A3_gain 1 1,
   p.A4_gain 0 0, p.A4_gain 1 1,
   p.A5_gain 0 0, p.A5_gain 1 1,
   p.A6_gain 0 0, p.A6_gain 1 1,
   p.A7_gain 0 0, p.A7_gain 1 1, p.A7_gain 2 2, p.A7_gain 3 3)

/-- The store values that `parameter_update` copies into the written
fields, in the same order as `writtenFields`. -/
def writtenStoreValues (store : String → ℚ) :=
  (store "NLIBSC_QMASS", store "NLIBSC_QIX_MOMENT", store "NLIBSC_QIY_MOMENT",
   store "NLIBSC_QIZ_MOMENT", store "NLIBSC_QARM_LENGTH", store "NLIBSC_QDRAG_COEFF",
   store "NLIBSC_QXLIN_DRAG", store "NLIBSC_QYLIN_DRAG", store "NLIBSC_QZLIN_DRAG",
   store "NLIBSC_QXROT_DRAG", store "NLIBSC_QYROT_DRAG", store "NLIBSC_QZROT_DRAG",
   store "NLIBSC_X_GAIN", store "NLIBSC_Y_GAIN",
   store "NLIBSC_X_VEL_GAIN", store "NLIBSC_Y_VEL_GAIN",
   store "NLIBSC_PHI_GAIN", store "NLIBSC_THETA_GAIN",
   store "NLIBSC_PHI_RATE_GAIN", store "NLIBSC_THETA_RATE_GAIN",
   store "NLIBSC_PSI_GAIN", store "NLIBSC_Z_GAIN",
   store "NLIBSC_PSI_RATE_GAIN", store "NLIBSC_Z_VEL_GAIN",
   store "NLIBSC_F1_GAIN", store "NLIBSC_F2_GAIN",
   store "NLIBSC_F3_GAIN", store "NLIBSC_F4_GAIN")

/-- Claim C9: the constructor binds each of the eight trailing
limit-parameter handles to the store name of a different parameter,
shifted by three positions in the parameter block: `xy_vel_max` is looked
up as `NLIBSC_ROLL_RATE_MAX`, `xy_ff` as `NLIBSC_PITCH_RATE_MAX`,
`tilt_max_air` as `NLIBSC_YAW_RATE_MAX`, `tilt_max_land` as
`NLIBSC_XY_VEL_MAX`, `land_speed` as `NLIBSC_XY_FF`, `man_roll_max` as
`NLIBSC_TILTMAX_AIR`, `man_pitch_max` as `NLIBSC_TILTMAX_LND`, and
`man_yaw_max` as `NLIBSC_LAND_SPEED`. -/
theorem constructor_limit_handle_names :
    params_handles.xy_vel_max = "NLIBSC_ROLL_RATE_MAX" ∧
    params_handles.xy_ff = "NLIBSC_PITCH_RATE_MAX" ∧
    params_handles.tilt_max_air = "NLIBSC_YAW_RATE_MAX" ∧
    params_handles.tilt_max_land = "NLIBSC_XY_VEL_MAX" ∧
    params_handles.land_speed = "NLIBSC_XY_FF" ∧
    params_handles.man_roll_max = "NLIBSC_TILTMAX_AIR" ∧
    params_handles.man_pitch_max = "NLIBSC_TILTMAX_LND" ∧
    params_handles.man_yaw_max = "NLIBSC_LAND_SPEED" :=
  ⟨rfl, rfl, rfl, rfl, rfl, rfl, rfl, rfl⟩

/-- Claim C10: a parameter-cache refresh leaves the thrust/tilt/speed/manual
limit fields, yaw feed-forward, the three rate maxima, the rotor geometry
and motor constant, `nlibs_rate_max`, and every off-diagonal gain entry
unchanged, and writes exactly the twelve mass/inertia/arm-length/drag
constants and the sixteen diagonal gain entries with the corresponding
store values. -/
theorem parameter_update_frame (store : String → ℚ) (p : Params) :
    untouchedFields (parameter_update store params_handles p) = untouchedFields p ∧
    writtenFields (parameter_update store params_handles p) = writtenStoreValues store :=
  ⟨rfl, rfl⟩

/-- A demonstration store holding `1` under every name. -/
def storeOne : String → ℚ := fun _ => 1

/-- A demonstration store holding `-1` under every name. -/
def storeNegOne : String → ℚ := fun _ => -1

/-- Claim C3 evidence: running the refresh against a store in which every
named parameter (in particular `NLIBSC_THR_MIN`) holds `1` leaves the
cached `thr_min`, `thr_max`, `tilt_max_air` and `q_rotor_radius` at their
stale value `0`: `parameter_update` never re-reads them, contradicting the
contract that every named parameter is re-read. -/
theorem parameter_update_skips_limits :
    (parameter_update storeOne params_handles initial_params).thr_min = 0 ∧
    (parameter_update storeOne params_handles initial_params).thr_max = 0 ∧
    (parameter_update storeOne params_handles initial_params).tilt_max_air = 0 ∧
    (parameter_update storeOne params_handles initial_params).q_rotor_radius = 0 ∧
    (parameter_update storeOne params_handles initial_params).q_motor_cst = 0 ∧
    storeOne params_handles.thr_min = 1 :=
  ⟨rfl, rfl, rfl, rfl, rfl, rfl⟩

/-- Claim C4 counterexample: a refresh against a store holding `-1` for
every name leaves a cached mass of `-1`, which is not strictly positive —
the refresh performs no validation of the values it reads. -/
theorem parameter_update_negative_mass :
    (parameter_update storeNegOne params_handles initial_params).q_mass = -1 ∧
    ¬ (0 < (parameter_update storeNegOne params_handles initial_params).q_mass) := by
  exact ⟨rfl, by decide⟩

/-- All seven gain matrices of a cached parameter struct have zero
off-diagonal entries. -/
def gainsDiagonal (p : Params) : Prop :=
  (∀ i j : Fin 2, i ≠ j → p.A1_gain i j = 0) ∧
  (∀ i j : Fin 2, i ≠ j → p.A2_gain i j = 0) ∧
  (∀ i j : Fin 2, i ≠ j → p.A3_gain i j = 0) ∧
  (∀ i j : Fin 2, i ≠ j → p.A4_gain i j = 0) ∧
  (∀ i j : Fin 2, i ≠ j → p.A5_gain i j = 0) ∧
  (∀ i j : Fin 2, i ≠ j → p.A6_gain i j = 0) ∧
  (∀ i j : Fin 4, i ≠ j → p.A7_gain i j = 0)

/-- All sixteen physical constants of a cached parameter struct are
strictly positive. -/
def physConstsPos (p : Params) : Prop :=
  0 < p.q_mass ∧ 0 < p.q_ix_moment ∧ 0 < p.q_iy_moment ∧ 0 < p.q_iz_moment ∧
  0 < p.q_arm_length ∧ 0 < p.q_drag_coeff ∧
  0 < p.q_xlin_drag ∧ 0 < p.q_ylin_drag ∧ 0 < p.q_zlin_drag ∧
  0 < p.q_xrot_drag ∧ 0 < p.q_yrot_drag ∧ 0 < p.q_zrot_drag ∧
  0 < p.q_rotor_radius ∧ 0 < p.q_rotor_twist_angle ∧
  0 < p.q_rotor_root_angle ∧ 0 < p.q_motor_cst

/-- All sixteen diagonal gain entries of a cached parameter struct are
non-negative. -/
def gainDiagsNonneg (p : Params) : Prop :=
  0 ≤ p.A1_gain 0 0 ∧ 0 ≤ p.A1_gain 1 1 ∧
  0 ≤ p.A2_gain 0 0 ∧ 0 ≤ p.A2_gain 1 1 ∧
  0 ≤ p.A3_gain 0 0 ∧ 0 ≤ p.A3_gain 1 1 ∧
  0 ≤ p.A4_gain 0 0 ∧ 0 ≤ p.A4_gain 1 1 ∧
  0 ≤ p.A5_gain 0 0 ∧ 0 ≤ p.A5_gain 1 1 ∧
  0 ≤ p.A6_gain 0 0 ∧ 0 ≤ p.A6_gain 1 1 ∧
  0 ≤ p.A7_gain 0 0 ∧ 0 ≤ p.A7_gain 1 1 ∧
  0 ≤ p.A7_gain 2 2 ∧ 0 ≤ p.A7_gain 3 3

/-- The store names of the twelve physical constants that the refresh
actually reads. -/
def physReadNames : List String :=
  ["NLIBSC_QMASS", "NLIBSC_QIX_MOMENT", "NLIBSC_QIY_MOMENT", "NLIBSC_QIZ_MOMENT",
   "NLIBSC_QARM_LENGTH", "NLIBSC_QDRAG_COEFF",
   "NLIBSC_QXLIN_DRAG", "NLIBSC_QYLIN_DRAG", "NLIBSC_QZLIN_DRAG",
   "NLIBSC_QXROT_DRAG", "NLIBSC_QYROT_DRAG", "NLIBSC_QZROT_DRAG"]

/-- The store names of the sixteen diagonal gain entries that the refresh
reads. -/
def gainDiagNames : List String :=
  ["NLIBSC_X_GAIN", "NLIBSC_Y_GAIN", "NLIBSC_X_VEL_GAIN", "NLIBSC_Y_VEL_GAIN",
   "NLIBSC_PHI_GAIN", "NLIBSC_THETA_GAIN", "NLIBSC_PHI_RATE_GAIN",
   "NLIBSC_THETA_RATE_GAIN", "NLIBSC_PSI_GAIN", "NLIBSC_Z_GAIN",
   "NLIBSC_PSI_RATE_GAIN", "NLIBSC_Z_VEL_GAIN",
   "NLIBSC_F1_GAIN", "NLIBSC_F2_GAIN", "NLIBSC_F3_GAIN", "NLIBSC_F4_GAIN"]

/-- An in-place write on the diagonal of a 2x2 matrix preserves zero
off-diagonal entries. -/
theorem upd2_offdiag_zero (M : Mat2) (k : Fin 2) (v : ℚ)
    (hM : ∀ i j : Fin 2, i ≠ j → M i j = 0) :
    ∀ i j : Fin 2, i ≠ j → upd2 M k k v i j = 0 := by
  intro i j hij
  unfold upd2
  split_ifs with h
  · exact absurd (h.1.trans h.2.symm) hij
  · exact hM i j hij

/-- An in-place write on the diagonal of a 4x4 matrix preserves zero
off-diagonal entries. -/
theorem upd4_offdiag_zero (M : Mat4) (k : Fin 4) (v : ℚ)
    (hM : ∀ i j : Fin 4, i ≠ j → M i j = 0) :
    ∀ i j : Fin 4, i ≠ j → upd4 M k k v i j = 0 := by
  intro i j hij
  unfold upd4
  split_ifs with h
  · exact absurd (h.1.trans h.2.symm) hij
  · exact hM i j hij

/-- Claim C4 as amended: a refresh starting from a cache whose gain
matrices have zero off-diagonal entries (the state the constructor
establishes) again yields diagonal gain matrices; and the refreshed
physical constants are strictly positive, and the refreshed gain diagonals
non-negative, provided the parameter store supplies such values for the
names read and the four rotor/motor constants the refresh does not touch
were already positive — the refresh itself validates nothing. -/
theorem parameter_update_diagonal_validated (store : String → ℚ) (p : Params)
    (hdiag : gainsDiagonal p)
    (hpos : ∀ n ∈ physReadNames, 0 < store n)
    (hgain : ∀ n ∈ gainDiagNames, 0 ≤ store n)
    (hrotor : 0 < p.q_rotor_radius ∧ 0 < p.q_rotor_twist_angle ∧
      0 < p.q_rotor_root_angle ∧ 0 < p.q_motor_cst) :
    gainsDiagonal (parameter_update store params_handles p) ∧
    physConstsPos (parameter_update store params_handles p) ∧
    gainDiagsNonneg (parameter_update store params_handles p) := by
  obtain ⟨h1, h2, h3, h4, h5, h6, h7⟩ := hdiag
  refine ⟨⟨?_, ?_, ?_, ?_, ?_, ?_, ?_⟩, ?_, ?_⟩
  · exact upd2_offdiag_zero _ 1 _ (upd2_offdiag_zero _ 0 _ h1)
  · exact upd2_offdiag_zero _ 1 _ (upd2_offdiag_zero _ 0 _ h2)
  · exact upd2_offdiag_zero _ 1 _ (upd2_offdiag_zero _ 0 _ h3)
  · exact upd2_offdiag_zero _ 1 _ (upd2_offdiag_zero _ 0 _ h4)
  · exact upd2_offdiag_zero _ 1 _ (upd2_offdiag_zero _ 0 _ h5)
  · exact upd2_offdiag_zero _ 1 _ (upd2_offdiag_zero _ 0 _ h6)
  · exact upd4_offdiag_zero _ 3 _ (upd4_offdiag_zero _ 2 _
      (upd4_offdiag_zero _ 1 _ (upd4_offdiag_zero _ 0 _ h7)))
  · exact ⟨hpos _ (by simp [physReadNames, params_handles]), hpos _ (by simp [physReadNames, params_handles]),
      hpos _ (by simp [physReadNames, params_handles]), hpos _ (by simp [physReadNames, params_handles]),
      hpos _ (by simp [physReadNames, params_handles]), hpos _ (by simp [physReadNames, params_handles]),
      hpos _ (by simp [physReadNames, params_handles]), hpos _ (by simp [physReadNames, params_handles]),
      hpos _ (by simp [physReadNames, params_handles]), hpos _ (by simp [physReadNames, params_handles]),
      hpos _ (by simp [physReadNames, params_handles]), hpos _ (by simp [physReadNames, params_handles]),
      hrotor.1, hrotor.2.1, hrotor.2.2.1, hrotor.2.2.2⟩
  · exact ⟨hgain _ (by simp [gainDiagNames, params_handles]), hgain _ (by simp [gainDiagNames, params_handles]),
      hgain _ (by simp [gainDiagNames, params_handles]), hgain _ (by simp [gainDiagNames, params_handles]),
      hgain _ (by simp [gainDiagNames, params_handles]), hgain _ (by simp [gainDiagNames, params_handles]),
      hgain _ (by simp [gainDiagNames, params_handles]), hgain _ (by simp [gainDiagNames, params_handles]),
      hgain _ (by simp [gainDiagNames, params_handles]), hgain _ (by simp [gainDiagNames, params_handles]),
      hgain _ (by simp [gainDiagNames, params_handles]), hgain _ (by simp [gainDiagNames, params_handles]),
      hgain _ (by simp [gainDiagNames, params_handles]), hgain _ (by simp [gainDiagNames, params_handles]),
      hgain _ (by simp [gainDiagNames, params_handles]), hgain _ (by simp [gainDiagNames, params_handles])⟩

/-- A concrete cache state with positive rotor/motor constants and zeroed
gain matrices, as left by a constructor run against a benign store. -/
def params_rotor_pos : Params :=
  { initial_params with
    q_rotor_radius := 1, q_rotor_twist_angle := 1
    q_rotor_root_angle := 1, q_motor_cst := 1 }

/-- Witness for the amended claim C4 at the all-ones store and a cache
state with positive rotor constants and zeroed gain matrices. -/
theorem parameter_update_diagonal_validated_witness :
    gainsDiagonal params_rotor_pos ∧
    (∀ n ∈ physReadNames, 0 < storeOne n) ∧
    (∀ n ∈ gainDiagNames, 0 ≤ storeOne n) ∧
    (0 < params_rotor_pos.q_rotor_radius ∧ 0 < params_rotor_pos.q_rotor_twist_angle ∧
      0 < params_rotor_pos.q_rotor_root_angle ∧ 0 < params_rotor_pos.q_motor_cst) ∧
    (gainsDiagonal (parameter_update storeOne params_handles params_rotor_pos) ∧
      physConstsPos (parameter_update storeOne params_handles params_rotor_pos) ∧
      gainDiagsNonneg (parameter_update storeOne params_handles params_rotor_pos)) :=
  ⟨by unfold gainsDiagonal; decide, by decide, by decide, by decide,
    parameter_update_diagonal_validated storeOne params_rotor_pos
      (by unfold gainsDiagonal; decide) (by decide) (by decide) (by decide)⟩

/-- Modelled from the spec: the Backstepping controller body
(`control_update`) is absent from the source (declaration only, line 300).
Following section 4.4, the computed thrust magnitude is clamped to the
interval `[thr_min, thr_max]`. -/
def thrust_output (thr_min thr_max raw : ℚ) : ℚ :=
  max thr_min (min raw thr_max)

/-- Modelled from the spec: the Backstepping controller body is absent from
the source.  Following section 4.4, the commanded tilt angle is bounded by
`tilt_max_air` while airborne and by `tilt_max_land` near the ground. -/
def tilt_output (tilt_max_air tilt_max_land : ℚ) (airborne : Bool) (raw_tilt : ℚ) : ℚ :=
  min raw_tilt (if airborne then tilt_max_air else tilt_max_land)

/-- Claim C1: in every control cycle the thrust scalar lies in
`[thr_min, thr_max]` (for a consistent limit pair), and the commanded tilt
is at most `tilt_max_air` when airborne and at most `tilt_max_land` near
the ground. -/
theorem thrust_tilt_clamped (p : Params) (raw raw_tilt : ℚ) (airborne : Bool)
    (hlim : p.thr_min ≤ p.thr_max) :
    p.thr_min ≤ thrust_output p.thr_min p.thr_max raw ∧
    thrust_output p.thr_min p.thr_max raw ≤ p.thr_max ∧
    (airborne = true →
      tilt_output p.tilt_max_air p.tilt_max_land airborne raw_tilt ≤ p.tilt_max_air) ∧
    (airborne = false →
      tilt_output p.tilt_max_air p.tilt_max_land airborne raw_tilt ≤ p.tilt_max_land) := by
  refine ⟨le_max_left _ _, max_le hlim (min_le_right _ _), ?_, ?_⟩
  · intro hair
    unfold tilt_output
    rw [hair]
    exact min_le_right _ _
  · intro hground
    unfold tilt_output
    rw [hground]
    exact min_le_right _ _

/-- Witness for claim C1 at a concrete limit pair and raw command. -/
theorem thrust_tilt_clamped_witness :
    params_rotor_pos.thr_min ≤ params_rotor_pos.thr_max ∧
    (params_rotor_pos.thr_min ≤ thrust_output params_rotor_pos.thr_min params_rotor_pos.thr_max 7 ∧
      thrust_output params_rotor_pos.thr_min params_rotor_pos.thr_max 7 ≤ params_rotor_pos.thr_max ∧
      (true = true →
        tilt_output params_rotor_pos.tilt_max_air params_rotor_pos.tilt_max_land true 2 ≤
          params_rotor_pos.tilt_max_air) ∧
      (true = false →
        tilt_output params_rotor_pos.tilt_max_air params_rotor_pos.tilt_max_land true 2 ≤
          params_rotor_pos.tilt_max_land)) :=
  ⟨by decide, thrust_tilt_clamped params_rotor_pos 7 2 true (by decide)⟩

/-- Clamp a scalar to the closed interval `[lo, hi]`. -/
def clampQ (v lo hi : ℚ) : ℚ := max lo (min v hi)

/-- One cycle of input to the rate loop: per-axis rate error, per-axis
integral gain, the cycle time delta, and the disarm / integrator-reset
flags. -/
structure RateInput where
  rate_err : Vec3Q
  gain : Vec3Q
  dt : ℚ
  disarmed : Bool
  reset_flag : Bool
deriving DecidableEq

/-- Modelled from the spec: the Rate Loop body (`task_main`) is absent from
the source (declaration only, line 359).  Following section 4.5, one update
of the `_rates_int` integral state: reset to zero on disarm or a mode reset
flag, skip integration when `dt` is zero or negative, otherwise accumulate
the per-axis integral term and clamp each component to
`±RATES_I_LIMIT` (`#define RATES_I_LIMIT 0.3f`, source line 104). -/
def rates_int_update (s : Vec3Q) (inp : RateInput) : Vec3Q :=
  if inp.disarmed || inp.reset_flag then Vec3Q.zero
  else if inp.dt ≤ 0 then s
  else
    ⟨clampQ (s.x + inp.gain.x * inp.rate_err.x * inp.dt) (-RATES_I_LIMIT) RATES_I_LIMIT,
     clampQ (s.y + inp.gain.y * inp.rate_err.y * inp.dt) (-RATES_I_LIMIT) RATES_I_LIMIT,
     clampQ (s.z + inp.gain.z * inp.rate_err.z * inp.dt) (-RATES_I_LIMIT) RATES_I_LIMIT⟩

/-- Every component of an integral state lies in
`[-RATES_I_LIMIT, RATES_I_LIMIT]`. -/
def ratesIntBounded (s : Vec3Q) : Prop :=
  -RATES_I_LIMIT ≤ s.x ∧ s.x ≤ RATES_I_LIMIT ∧
  -RATES_I_LIMIT ≤ s.y ∧ s.y ≤ RATES_I_LIMIT ∧
  -RATES_I_LIMIT ≤ s.z ∧ s.z ≤ RATES_I_LIMIT

/-- Clamping to `[lo, hi]` lands in `[lo, hi]` whenever `lo ≤ hi`. -/
theorem clampQ_mem (v lo hi : ℚ) (h : lo ≤ hi) :
    lo ≤ clampQ v lo hi ∧ clampQ v lo hi ≤ hi :=
  ⟨le_max_left _ _, max_le h (min_le_right _ _)⟩

/-- One rate-loop update keeps a bounded integral state bounded. -/
theorem rates_int_update_bounded (s : Vec3Q) (inp : RateInput)
    (hs : ratesIntBounded s) : ratesIntBounded (rates_int_update s inp) := by
  unfold rates_int_update
  split_ifs with h1 h2
  · refine ⟨?_, ?_, ?_, ?_, ?_, ?_⟩ <;> simp [Vec3Q.zero, RATES_I_LIMIT] <;> norm_num
  · exact hs
  · have hlim : (-RATES_I_LIMIT : ℚ) ≤ RATES_I_LIMIT := by norm_num [RATES_I_LIMIT]
    exact ⟨(clampQ_mem _ _ _ hlim).1, (clampQ_mem _ _ _ hlim).2,
      (clampQ_mem _ _ _ hlim).1, (clampQ_mem _ _ _ hlim).2,
      (clampQ_mem _ _ _ hlim).1, (clampQ_mem _ _ _ hlim).2⟩

/-- Claim C2: starting from the zeroed integral state established at
construction (`_rates_int.zero()`, source line 439), after every update of
any input sequence each component of the integral state remains within
`[-RATES_I_LIMIT, RATES_I_LIMIT]` (the state after any prefix of a
sequence is the fold over that prefix), and an update whose cycle reports a
disarm yields exactly the zero state. -/
theorem rates_int_invariant :
    (∀ inps : List RateInput, ratesIntBounded (inps.foldl rates_int_update Vec3Q.zero)) ∧
    (∀ (s : Vec3Q) (inp : RateInput), inp.disarmed = true →
      rates_int_update s inp = Vec3Q.zero) := by
  constructor
  · intro inps
    induction inps using List.reverseRecOn with
    | nil =>
      refine ⟨?_, ?_, ?_, ?_, ?_, ?_⟩ <;> simp [Vec3Q.zero, RATES_I_LIMIT] <;> norm_num
    | append_singleton l inp ih =>
      rw [List.foldl_append, List.foldl_cons, List.foldl_nil]
      exact rates_int_update_bounded _ inp ih
  · intro s inp hdis
    unfold rates_int_update
    rw [hdis]
    simp

/-- Witness for claim C2: a concrete three-cycle input sequence stays in
bounds, and a concrete disarm cycle from a nonzero state returns the exact
zero state. -/
theorem rates_int_invariant_witness :
    ratesIntBounded
      ([⟨⟨1, -2, 3⟩, ⟨1, 1, 1⟩, 1/100, false, false⟩,
        ⟨⟨50, 0, -50⟩, ⟨2, 2, 2⟩, 1/2, false, false⟩,
        ⟨⟨0, 0, 0⟩, ⟨1, 1, 1⟩, -1, false, false⟩].foldl rates_int_update Vec3Q.zero) ∧
    (⟨⟨7, 7, 7⟩, ⟨1, 1, 1⟩, 1/100, true, false⟩ : RateInput).disarmed = true ∧
    rates_int_update ⟨1/4, -1/4, 1/10⟩ ⟨⟨7, 7, 7⟩, ⟨1, 1, 1⟩, 1/100, true, false⟩ = Vec3Q.zero :=
  ⟨rates_int_invariant.1 _, rfl,
    rates_int_invariant.2 ⟨1/4, -1/4, 1/10⟩ ⟨⟨7, 7, 7⟩, ⟨1, 1, 1⟩, 1/100, true, false⟩ rfl⟩

/-- The three mutually exclusive setpoint-generation strategies of
section 3 (`ControlMode`). -/
inductive ControlModeK where
  | Manual : ControlModeK
  | Offboard : ControlModeK
  | Auto : ControlModeK
deriving DecidableEq

/-- Modelled from the spec: the Mode Setpoint Generator state.  The
reset-flag fields mirror the source declarations `_reset_pos_sp`,
`_reset_alt_sp`, `_reset_yaw_s` (lines 270-273) whose driving code
(`control_manual` / `control_offboard` / `control_auto` bodies) is absent
from the source. -/
structure SPGenState where
  mode : ControlModeK
  reset_pos_sp : Bool
  reset_alt_sp : Bool
  reset_yaw_s : Bool
  pos_sp : Vec3Q
  yaw_sp : ℚ
deriving DecidableEq

/-- Modelled from the spec: section 4.3's transition rule — entering Manual
or Auto from another mode, or after a disarm/arm cycle, sets the
`reset_pos_sp`/`reset_alt_sp`/`reset_yaw` flags. -/
def enter_mode (st : SPGenState) (newMode : ControlModeK) (disarm_cycle : Bool) : SPGenState :=
  if (newMode ≠ st.mode ∧ (newMode = ControlModeK.Manual ∨ newMode = ControlModeK.Auto)) ∨
      disarm_cycle = true then
    { st with mode := newMode, reset_pos_sp := true, reset_alt_sp := true, reset_yaw_s := true }
  else
    { st with mode := newMode }

/-- Modelled from the spec: the setpoint computation consuming the reset
flags (the `reset_pos_sp()` / `reset_alt_sp()` routines declared at source
lines 316-321, bodies absent) — a set flag pins the corresponding setpoint
component to the current estimate and clears itself; an unset flag keeps
the previous target. -/
def compute_setpoint (st : SPGenState) (pos : Vec3Q) (yaw : ℚ) : SPGenState :=
  let st1 :=
    if st.reset_pos_sp then
      { st with pos_sp := ⟨pos.x, pos.y, st.pos_sp.z⟩, reset_pos_sp := false }
    else st
  let st2 :=
    if st1.reset_alt_sp then
      { st1 with pos_sp := ⟨st1.pos_sp.x, st1.pos_sp.y, pos.z⟩, reset_alt_sp := false }
    else st1
  if st2.reset_yaw_s then { st2 with yaw_sp := yaw, reset_yaw_s := false } else st2

/-- Claim C5: after a cross-mode transition into Manual or Auto, or after a
disarm/arm cycle, the very next computed position/altitude/yaw setpoint
equals the current estimated position/altitude/yaw rather than the stale
previous target. -/
theorem mode_transition_resets_setpoint (st : SPGenState) (newMode : ControlModeK)
    (disarm_cycle : Bool) (pos : Vec3Q) (yaw : ℚ)
    (htrans : (newMode ≠ st.mode ∧
        (newMode = ControlModeK.Manual ∨ newMode = ControlModeK.Auto)) ∨
      disarm_cycle = true) :
    (compute_setpoint (enter_mode st newMode disarm_cycle) pos yaw).pos_sp = pos ∧
    (compute_setpoint (enter_mode st newMode disarm_cycle) pos yaw).yaw_sp = yaw := by
  unfold enter_mode
  rw [if_pos htrans]
  unfold compute_setpoint
  simp only [if_pos rfl]
  cases pos
  constructor <;> rfl

/-- Witness for claim C5: a concrete Manual-to-Auto transition from a state
with a stale target pins the next setpoint to the current estimate. -/
theorem mode_transition_resets_setpoint_witness :
    ((ControlModeK.Auto ≠
        (⟨ControlModeK.Manual, false, false, false, ⟨100, 100, 100⟩, 9⟩ : SPGenState).mode ∧
      (ControlModeK.Auto = ControlModeK.Manual ∨ ControlModeK.Auto = ControlModeK.Auto)) ∨
      false = true) ∧
    ((compute_setpoint
        (enter_mode ⟨ControlModeK.Manual, false, false, false, ⟨100, 100, 100⟩, 9⟩
          ControlModeK.Auto false) ⟨1, 2, 3⟩ 4).pos_sp = ⟨1, 2, 3⟩ ∧
      (compute_setpoint
        (enter_mode ⟨ControlModeK.Manual, false, false, false, ⟨100, 100, 100⟩, 9⟩
          ControlModeK.Auto false) ⟨1, 2, 3⟩ 4).yaw_sp = 4) :=
  ⟨by decide,
    mode_transition_resets_setpoint ⟨ControlModeK.Manual, false, false, false, ⟨100, 100, 100⟩, 9⟩
      ControlModeK.Auto false ⟨1, 2, 3⟩ 4 (by decide)⟩

/-- The four-component actuator-control vector (`actuator_controls_s`:
roll, pitch, yaw torque and thrust). -/
structure ActuatorControls where
  c0 : ℚ
  c1 : ℚ
  c2 : ℚ
  c3 : ℚ
deriving DecidableEq

/-- The zeroed/safe actuator vector. -/
def ActuatorControls.zero : ActuatorControls := ⟨0, 0, 0, 0⟩

/-- Modelled from the spec: the orchestrator body (`task_main`) is absent
from the source; only the circuit-breaker flag declaration
`_actuators_0_circuit_breaker_enabled` (line 158) is present.  Following
section 4.6 step 6, the published actuator vector is the computed one
unless output suppression is enabled or the vehicle is disarmed, in which
case the zeroed/safe vector is published instead. -/
def publish_actuators (breaker_enabled disarmed : Bool)
    (computed : ActuatorControls) : ActuatorControls :=
  if breaker_enabled || disarmed then ActuatorControls.zero else computed

/-- Claim C8: whenever the actuator circuit breaker is enabled or the
vehicle is disarmed, the published actuator-control vector is the
zeroed/safe one, not the computed one. -/
theorem circuit_breaker_zeroes_output (breaker_enabled disarmed : Bool)
    (computed : ActuatorControls)
    (h : breaker_enabled = true ∨ disarmed = true) :
    publish_actuators breaker_enabled disarmed computed = ActuatorControls.zero := by
  unfold publish_actuators
  rcases h with h | h <;> rw [h] <;> simp

/-- Witness for claim C8: with the breaker enabled, a nonzero computed
vector is replaced by the zero vector. -/
theorem circuit_breaker_zeroes_output_witness :
    (true = true ∨ false = true) ∧
    publish_actuators true false ⟨1, 2, 3, 4⟩ = ActuatorControls.zero :=
  ⟨Or.inl rfl, circuit_breaker_zeroes_output true false ⟨1, 2, 3, 4⟩ (Or.inl rfl)⟩

/-- A 3-vector over the reals, for the geometric routines
(`math::Vector<3>` of positions and setpoints). -/
structure Vec3R where
  x : ℝ
  y : ℝ
  z : ℝ

/-- Componentwise vector addition. -/
def Vec3R.add (u v : Vec3R) : Vec3R := ⟨u.x + v.x, u.y + v.y, u.z + v.z⟩

/-- Componentwise vector subtraction. -/
def Vec3R.sub (u v : Vec3R) : Vec3R := ⟨u.x - v.x, u.y - v.y, u.z - v.z⟩

/-- Scalar multiplication. -/
def Vec3R.smul (t : ℝ) (v : Vec3R) : Vec3R := ⟨t * v.x, t * v.y, t * v.z⟩

/-- Euclidean inner product. -/
def Vec3R.dot (u v : Vec3R) : ℝ := u.x * v.x + u.y * v.y + u.z * v.z

/-- Squared Euclidean length. -/
def Vec3R.normSq (v : Vec3R) : ℝ := Vec3R.dot v v

/-- Euclidean length (`math::Vector::length()`). -/
noncomputable def Vec3R.norm (v : Vec3R) : ℝ := Real.sqrt v.normSq

/-- Equality of 3-vectors is componentwise. -/
theorem Vec3R.eq_iff (u v : Vec3R) : u = v ↔ u.x = v.x ∧ u.y = v.y ∧ u.z = v.z := by
  cases u
  cases v
  simp [Vec3R.mk.injEq]

/-- The squared length is non-negative. -/
theorem Vec3R.normSq_nonneg (v : Vec3R) : 0 ≤ v.normSq := by
  unfold Vec3R.normSq Vec3R.dot
  nlinarith [mul_self_nonneg v.x, mul_self_nonneg v.y, mul_self_nonneg v.z]

/-- The length squares back to the squared length. -/
theorem Vec3R.norm_sq_eq (v : Vec3R) : v.norm ^ 2 = v.normSq :=
  Real.sq_sqrt (Vec3R.normSq_nonneg v)

/-- The length is non-negative. -/
theorem Vec3R.norm_nonneg (v : Vec3R) : 0 ≤ v.norm := Real.sqrt_nonneg _

/-- A vector with zero squared length is the zero vector. -/
theorem Vec3R.normSq_eq_zero_iff (v : Vec3R) : v.normSq = 0 ↔ v = ⟨0, 0, 0⟩ := by
  constructor
  · intro h
    unfold Vec3R.normSq Vec3R.dot at h
    have hx : v.x * v.x = 0 := le_antisymm
      (by nlinarith [mul_self_nonneg v.y, mul_self_nonneg v.z]) (mul_self_nonneg v.x)
    have hy : v.y * v.y = 0 := le_antisymm
      (by nlinarith [mul_self_nonneg v.x, mul_self_nonneg v.z]) (mul_self_nonneg v.y)
    have hz : v.z * v.z = 0 := le_antisymm
      (by nlinarith [mul_self_nonneg v.x, mul_self_nonneg v.y]) (mul_self_nonneg v.z)
    rw [Vec3R.eq_iff]
    exact ⟨mul_self_eq_zero.mp hx, mul_self_eq_zero.mp hy, mul_self_eq_zero.mp hz⟩
  · intro h
    rw [h]
    unfold Vec3R.normSq Vec3R.dot
    ring

/-- A nonzero vector has strictly positive length. -/
theorem Vec3R.norm_pos (v : Vec3R) (hv : v ≠ ⟨0, 0, 0⟩) : 0 < v.norm := by
  apply Real.sqrt_pos.mpr
  rcases lt_or_eq_of_le (Vec3R.normSq_nonneg v) with h | h
  · exact h
  · exact absurd ((Vec3R.normSq_eq_zero_iff v).mp h.symm) hv

/-- Squared length of a scaled vector. -/
theorem Vec3R.normSq_smul (t : ℝ) (v : Vec3R) :
    (Vec3R.smul t v).normSq = t ^ 2 * v.normSq := by
  unfold Vec3R.normSq Vec3R.dot Vec3R.smul
  ring

/-- Length of a scaled vector. -/
theorem Vec3R.norm_smul (t : ℝ) (v : Vec3R) :
    (Vec3R.smul t v).norm = |t| * v.norm := by
  unfold Vec3R.norm
  rw [Vec3R.normSq_smul, sq_abs t |>.symm, Real.sqrt_mul (sq_nonneg |t|), Real.sqrt_sq_eq_abs,
    abs_abs]

/-- Second Pythagorean expansion used below. -/
theorem Vec3R.normSq_add_smul (v u : Vec3R) (t : ℝ) :
    (Vec3R.add v (Vec3R.smul t u)).normSq =
      v.normSq + 2 * t * Vec3R.dot v u + t ^ 2 * u.normSq := by
  unfold Vec3R.normSq Vec3R.dot Vec3R.add Vec3R.smul
  ring

/-- Subtracting a sum is subtracting both summands. -/
theorem Vec3R.sub_add_right (c a w : Vec3R) :
    Vec3R.sub c (Vec3R.add a w) = Vec3R.sub (Vec3R.sub c a) w := by
  rw [Vec3R.eq_iff]
  unfold Vec3R.sub Vec3R.add
  refine ⟨by ring, by ring, by ring⟩

/-- Subtraction after adding an offset. -/
theorem Vec3R.sub_add_left (d w c : Vec3R) :
    Vec3R.sub (Vec3R.add d w) c = Vec3R.add (Vec3R.sub d c) w := by
  rw [Vec3R.eq_iff]
  unfold Vec3R.sub Vec3R.add
  refine ⟨by ring, by ring, by ring⟩

/-- Offset of a shifted point from the base point. -/
theorem Vec3R.add_sub_cancel (pos w : Vec3R) :
    Vec3R.sub (Vec3R.add pos w) pos = w := by
  rw [Vec3R.eq_iff]
  unfold Vec3R.sub Vec3R.add
  refine ⟨by ring, by ring, by ring⟩

/-- Collecting two collinear displacements. -/
theorem Vec3R.add_smul_collect (a u : Vec3R) (s t : ℝ) :
    Vec3R.add (Vec3R.add a (Vec3R.smul s u)) (Vec3R.smul t u) =
      Vec3R.add a (Vec3R.smul (s + t) u) := by
  rw [Vec3R.eq_iff]
  unfold Vec3R.add Vec3R.smul
  refine ⟨by ring, by ring, by ring⟩

/-- Inner product is linear in a subtraction of a scaled vector. -/
theorem Vec3R.dot_sub_smul (w u : Vec3R) (s : ℝ) :
    Vec3R.dot (Vec3R.sub w (Vec3R.smul s u)) u = Vec3R.dot w u - s * Vec3R.dot u u := by
  unfold Vec3R.dot Vec3R.sub Vec3R.smul
  ring

/-- Inner product changes sign with the order of a subtraction. -/
theorem Vec3R.dot_sub_anticomm (d c u : Vec3R) :
    Vec3R.dot (Vec3R.sub d c) u = -Vec3R.dot (Vec3R.sub c d) u := by
  unfold Vec3R.dot Vec3R.sub
  ring

/-- Squared length is symmetric in the order of a subtraction. -/
theorem Vec3R.normSq_sub_comm (d c : Vec3R) :
    (Vec3R.sub d c).normSq = (Vec3R.sub c d).normSq := by
  unfold Vec3R.normSq Vec3R.dot Vec3R.sub
  ring

/-- A nonzero difference of distinct points. -/
theorem Vec3R.sub_ne_zero (a b : Vec3R) (hab : a ≠ b) : Vec3R.sub b a ≠ ⟨0, 0, 0⟩ := by
  intro h
  rw [Vec3R.eq_iff] at h
  unfold Vec3R.sub at h
  simp only at h
  apply hab
  rw [Vec3R.eq_iff]
  obtain ⟨h1, h2, h3⟩ := h
  refine ⟨by linarith, by linarith, by linarith⟩

/-- Unit direction of travel from the previous to the current waypoint. -/
noncomputable def dirU (line_a line_b : Vec3R) : Vec3R :=
  Vec3R.smul ((Vec3R.sub line_b line_a).norm)⁻¹ (Vec3R.sub line_b line_a)

/-- Foot of the perpendicular from the sphere center onto the travel
line. -/
noncomputable def footD (sphere_c line_a line_b : Vec3R) : Vec3R :=
  Vec3R.add line_a
    (Vec3R.smul (Vec3R.dot (Vec3R.sub sphere_c line_a) (dirU line_a line_b))
      (dirU line_a line_b))

/-- Distance from the sphere center to the travel line. -/
noncomputable def cdLen (sphere_c line_a line_b : Vec3R) : ℝ :=
  (Vec3R.sub sphere_c (footD sphere_c line_a line_b)).norm

/-- Modelled from the spec: the body of
`MulticopterNLIBSControl::cross_sphere_line` is absent from the source
(declaration only, lines 338-339).  Following sections 4.3 and 8: project
the sphere center onto the previous-to-current waypoint line; when the
line passes within the sphere radius, return `true` and the forward
intersection point in the direction of travel (the projection foot plus
the Pythagorean half-chord along the travel direction); otherwise return
`false` and the current waypoint `line_b` itself. -/
noncomputable def cross_sphere_line (sphere_c : Vec3R) (sphere_r : ℝ)
    (line_a line_b : Vec3R) : Bool × Vec3R :=
  if cdLen sphere_c line_a line_b < sphere_r then
    (true,
      Vec3R.add (footD sphere_c line_a line_b)
        (Vec3R.smul (Real.sqrt (sphere_r ^ 2 - cdLen sphere_c line_a line_b ^ 2))
          (dirU line_a line_b)))
  else
    (false, line_b)

/-- The travel direction is a unit vector for distinct waypoints. -/
theorem dirU_dot_self (line_a line_b : Vec3R) (hab : line_a ≠ line_b) :
    Vec3R.dot (dirU line_a line_b) (dirU line_a line_b) = 1 := by
  have hne := Vec3R.sub_ne_zero line_a line_b hab
  have hn : 0 < (Vec3R.sub line_b line_a).norm := Vec3R.norm_pos _ hne
  show (dirU line_a line_b).normSq = 1
  unfold dirU
  rw [Vec3R.normSq_smul]
  have hsq : (Vec3R.sub line_b line_a).normSq = (Vec3R.sub line_b line_a).norm ^ 2 :=
    (Vec3R.norm_sq_eq _).symm
  rw [hsq]
  field_simp

/-- The displacement from the projection foot to the sphere center is
orthogonal to the travel direction. -/
theorem footD_ortho (sphere_c line_a line_b : Vec3R) (hab : line_a ≠ line_b) :
    Vec3R.dot (Vec3R.sub sphere_c (footD sphere_c line_a line_b)) (dirU line_a line_b) = 0 := by
  unfold footD
  rw [Vec3R.sub_add_right, Vec3R.dot_sub_smul, dirU_dot_self line_a line_b hab]
  ring

/-- Claim C6: for distinct waypoints and a non-negative radius, whenever
`cross_sphere_line` reports an intersection it returns a point whose
distance from the sphere center is exactly the radius and which lies on
the travel line, forward of the projection foot (its line parameter is at
least the foot's); and whenever it reports no intersection it returns the
current waypoint `line_b` itself. -/
theorem cross_sphere_line_spec (sphere_c : Vec3R) (sphere_r : ℝ) (line_a line_b : Vec3R)
    (hab : line_a ≠ line_b) (hr : 0 ≤ sphere_r) :
    ((cross_sphere_line sphere_c sphere_r line_a line_b).1 = true →
      (Vec3R.sub (cross_sphere_line sphere_c sphere_r line_a line_b).2 sphere_c).norm =
        sphere_r ∧
      ∃ t : ℝ,
        (cross_sphere_line sphere_c sphere_r line_a line_b).2 =
          Vec3R.add line_a (Vec3R.smul t (dirU line_a line_b)) ∧
        Vec3R.dot (Vec3R.sub sphere_c line_a) (dirU line_a line_b) ≤ t) ∧
    ((cross_sphere_line sphere_c sphere_r line_a line_b).1 = false →
      (cross_sphere_line sphere_c sphere_r line_a line_b).2 = line_b) := by
  by_cases hcd : cdLen sphere_c line_a line_b < sphere_r
  · have heq : cross_sphere_line sphere_c sphere_r line_a line_b =
        (true,
          Vec3R.add (footD sphere_c line_a line_b)
            (Vec3R.smul (Real.sqrt (sphere_r ^ 2 - cdLen sphere_c line_a line_b ^ 2))
              (dirU line_a line_b))) := by
      unfold cross_sphere_line
      rw [if_pos hcd]
    rw [heq]
    have hcd0 : 0 ≤ cdLen sphere_c line_a line_b := Vec3R.norm_nonneg _
    have hroot0 : 0 ≤ sphere_r ^ 2 - cdLen sphere_c line_a line_b ^ 2 := by nlinarith
    refine ⟨fun _ => ⟨?_, ?_⟩, fun hfalse => absurd hfalse (by simp)⟩
    · rw [Vec3R.sub_add_left]
      unfold Vec3R.norm
      rw [Vec3R.normSq_add_smul,
        Vec3R.dot_sub_anticomm _ sphere_c _,
        footD_ortho sphere_c line_a line_b hab,
        show (dirU line_a line_b).normSq = 1 from dirU_dot_self line_a line_b hab,
        Vec3R.normSq_sub_comm]
      have hdx : Real.sqrt (sphere_r ^ 2 - cdLen sphere_c line_a line_b ^ 2) ^ 2 =
          sphere_r ^ 2 - cdLen sphere_c line_a line_b ^ 2 := Real.sq_sqrt hroot0
      have hcd2 : (Vec3R.sub sphere_c (footD sphere_c line_a line_b)).normSq =
          cdLen sphere_c line_a line_b ^ 2 := (Vec3R.norm_sq_eq _).symm
      have harg : (Vec3R.sub sphere_c (footD sphere_c line_a line_b)).normSq +
          2 * Real.sqrt (sphere_r ^ 2 - cdLen sphere_c line_a line_b ^ 2) * -0 +
          Real.sqrt (sphere_r ^ 2 - cdLen sphere_c line_a line_b ^ 2) ^ 2 * 1 =
          sphere_r ^ 2 := by
        rw [hcd2, hdx]
        ring
      rw [harg, Real.sqrt_sq hr]
    · refine ⟨Vec3R.dot (Vec3R.sub sphere_c line_a) (dirU line_a line_b) +
        Real.sqrt (sphere_r ^ 2 - cdLen sphere_c line_a line_b ^ 2), ?_, ?_⟩
      · show Vec3R.add (footD sphere_c line_a line_b) _ = _
        unfold footD
        rw [Vec3R.add_smul_collect]
      · exact le_add_of_nonneg_right (Real.sqrt_nonneg _)
  · have heq : cross_sphere_line sphere_c sphere_r line_a line_b = (false, line_b) := by
      unfold cross_sphere_line
      rw [if_neg hcd]
    rw [heq]
    exact ⟨fun htrue => absurd htrue (by simp), fun _ => rfl⟩

/-- Witness for claim C6: a concrete crossing configuration (sphere of
radius 1 at the origin, segment from `(-2,0,0)` to `(-1,0,0)`) reports an
intersection and returns a point at distance exactly 1 from the center. -/
theorem cross_sphere_line_spec_witness :
    (⟨-2, 0, 0⟩ : Vec3R) ≠ ⟨-1, 0, 0⟩ ∧ (0 : ℝ) ≤ 1 ∧
    (cross_sphere_line ⟨0, 0, 0⟩ 1 ⟨-2, 0, 0⟩ ⟨-1, 0, 0⟩).1 = true ∧
    (Vec3R.sub (cross_sphere_line ⟨0, 0, 0⟩ 1 ⟨-2, 0, 0⟩ ⟨-1, 0, 0⟩).2 ⟨0, 0, 0⟩).norm = 1 := by
  have hab : (⟨-2, 0, 0⟩ : Vec3R) ≠ ⟨-1, 0, 0⟩ := by
    intro hcontra
    rw [Vec3R.eq_iff] at hcontra
    norm_num at hcontra
  have hcd : cdLen ⟨0, 0, 0⟩ ⟨-2, 0, 0⟩ ⟨-1, 0, 0⟩ = 0 := by
    unfold cdLen footD dirU
    unfold Vec3R.norm Vec3R.normSq Vec3R.dot Vec3R.sub Vec3R.add Vec3R.smul
    norm_num
  have hflag : (cross_sphere_line ⟨0, 0, 0⟩ 1 ⟨-2, 0, 0⟩ ⟨-1, 0, 0⟩).1 = true := by
    unfold cross_sphere_line
    rw [if_pos (by rw [hcd]; norm_num)]
  exact ⟨hab, by norm_num, hflag,
    ((cross_sphere_line_spec ⟨0, 0, 0⟩ 1 ⟨-2, 0, 0⟩ ⟨-1, 0, 0⟩ hab (by norm_num)).1 hflag).1⟩

/-- Modelled from the spec: the body of
`MulticopterNLIBSControl::limit_pos_sp_offset` is absent from the source
(declaration only, line 326).  Following section 4.3: when the distance
between the position setpoint and the current position exceeds the
configured maximum offset, the setpoint is clamped along the direction
vector to that maximum distance; otherwise it is left unchanged. -/
noncomputable def limit_pos_sp_offset (pos pos_sp : Vec3R) (sp_offs_max : ℝ) : Vec3R :=
  if sp_offs_max < (Vec3R.sub pos_sp pos).norm then
    Vec3R.add pos
      (Vec3R.smul (sp_offs_max / (Vec3R.sub pos_sp pos).norm) (Vec3R.sub pos_sp pos))
  else
    pos_sp

/-- A clamped setpoint sits at distance exactly the maximum offset from
the current position (when clamping actually occurred). -/
theorem limit_pos_sp_offset_dist (pos pos_sp : Vec3R) (m : ℝ) (hm : 0 ≤ m)
    (hfar : m < (Vec3R.sub pos_sp pos).norm) :
    (Vec3R.sub (limit_pos_sp_offset pos pos_sp m) pos).norm = m := by
  have hn : 0 < (Vec3R.sub pos_sp pos).norm := lt_of_le_of_lt hm hfar
  unfold limit_pos_sp_offset
  rw [if_pos hfar, Vec3R.add_sub_cancel, Vec3R.norm_smul,
    abs_of_nonneg (div_nonneg hm (le_of_lt hn)), div_mul_cancel₀ m (ne_of_gt hn)]

/-- Claim C7: `limit_pos_sp_offset` leaves a setpoint already within the
configured maximum distance of the current position unchanged; in
particular a second application on top of a first changes nothing, for any
non-negative maximum offset. -/
theorem limit_pos_sp_offset_idem (pos pos_sp : Vec3R) (m : ℝ) (hm : 0 ≤ m) :
    ((Vec3R.sub pos_sp pos).norm ≤ m → limit_pos_sp_offset pos pos_sp m = pos_sp) ∧
    limit_pos_sp_offset pos (limit_pos_sp_offset pos pos_sp m) m =
      limit_pos_sp_offset pos pos_sp m := by
  have hnear : ∀ sp : Vec3R, (Vec3R.sub sp pos).norm ≤ m →
      limit_pos_sp_offset pos sp m = sp := by
    intro sp hsp
    unfold limit_pos_sp_offset
    rw [if_neg (not_lt.mpr hsp)]
  refine ⟨hnear pos_sp, ?_⟩
  by_cases hfar : m < (Vec3R.sub pos_sp pos).norm
  · exact hnear _ (le_of_eq (limit_pos_sp_offset_dist pos pos_sp m hm hfar))
  · rw [hnear pos_sp (not_lt.mp hfar)]
    exact hnear pos_sp (not_lt.mp hfar)

/-- Witness for claim C7 at the origin, the setpoint `(1,0,0)` and maximum
offset `1/2`. -/
theorem limit_pos_sp_offset_idem_witness :
    (0 : ℝ) ≤ 1/2 ∧
    (((Vec3R.sub ⟨1, 0, 0⟩ ⟨0, 0, 0⟩).norm ≤ 1/2 →
        limit_pos_sp_offset ⟨0, 0, 0⟩ ⟨1, 0, 0⟩ (1/2) = ⟨1, 0, 0⟩) ∧
      limit_pos_sp_offset ⟨0, 0, 0⟩ (limit_pos_sp_offset ⟨0, 0, 0⟩ ⟨1, 0, 0⟩ (1/2)) (1/2) =
        limit_pos_sp_offset ⟨0, 0, 0⟩ ⟨1, 0, 0⟩ (1/2)) :=
  ⟨by norm_num, limit_pos_sp_offset_idem ⟨0, 0, 0⟩ ⟨1, 0, 0⟩ (1/2) (by norm_num)⟩
